import Mathlib

/-!
Shallow embedding of the crop-recommendation scoring core of
`src/main.jsx` (`computeRecommendations`, lines 128-167), together with
theorems settling the specification claims about it.

JavaScript numbers are modelled as rationals (all arithmetic appearing in
the scorer is exact decimal arithmetic), `Math.round` as
`fun x => Int.floor (x + 1/2)` (ECMAScript rounds half toward positive
infinity), and ECMAScript `Array.prototype.sort` (stable since ES2019)
with comparator `(a, b) => b.score - a.score` as the stable
`List.insertionSort` under the relation `b.score <= a.score`.
-/

namespace CropRec

/-- The `ideal` sub-record of a crop bank entry: inclusive ranges and
viable seasons. -/
structure IdealRanges where
  ph : ℚ × ℚ
  temp : ℚ × ℚ
  rainfall : ℚ × ℚ
  seasons : List String
deriving DecidableEq, Repr

/-- One entry of the static `cropBank` reference table. -/
structure Crop where
  name : String
  ideal : IdealRanges
  baseYield : ℚ
  fertilizer : String
  water : String
deriving DecidableEq, Repr

/-- The destructured argument of `computeRecommendations`. -/
structure ScenarioInput where
  ph : ℚ
  temperature : ℚ
  rainfall : ℚ
  soilType : String
  area : ℚ
  season : String
  preference : String
deriving DecidableEq, Repr

/-- The record returned by `scoreCrop`: the spread crop fields plus
`score`, `expectedYield` and `expectedYieldValue`. -/
structure RankedCrop extends Crop where
  score : ℚ
  expectedYield : ℚ
  expectedYieldValue : ℚ
deriving DecidableEq, Repr

def wheatCrop : Crop :=
  { name := "Wheat"
    ideal := { ph := (6.0, 7.5), temp := (10, 25), rainfall := (300, 900), seasons := ["Rabi"] }
    baseYield := 3.0, fertilizer := "NPK 20-20-0", water := "Medium" }

def riceCrop : Crop :=
  { name := "Rice"
    ideal := { ph := (5.5, 7.0), temp := (20, 35), rainfall := (1000, 2000), seasons := ["Kharif"] }
    baseYield := 4.0, fertilizer := "NPK 16-16-8", water := "High" }

def maizeCrop : Crop :=
  { name := "Maize"
    ideal := { ph := (5.5, 7.5), temp := (18, 32), rainfall := (500, 1200), seasons := ["Kharif", "Rabi"] }
    baseYield := 5.5, fertilizer := "NPK 18-46-0", water := "Medium" }

def cottonCrop : Crop :=
  { name := "Cotton"
    ideal := { ph := (5.5, 7.5), temp := (20, 35), rainfall := (500, 1500), seasons := ["Kharif"] }
    baseYield := 2.2, fertilizer := "NPK 10-26-26", water := "Medium" }

def mustardCrop : Crop :=
  { name := "Mustard"
    ideal := { ph := (6.0, 7.5), temp := (5, 25), rainfall := (200, 600), seasons := ["Rabi"] }
    baseYield := 1.1, fertilizer := "NPK 15-15-15", water := "Low" }

def pulsesCrop : Crop :=
  { name := "Pulses"
    ideal := { ph := (6.0, 7.5), temp := (15, 30), rainfall := (400, 800), seasons := ["Rabi", "Kharif"] }
    baseYield := 1.4, fertilizer := "DAP + Urea (split)", water := "Low" }

/-- The static reference table, in source order. -/
def cropBank : List Crop :=
  [wheatCrop, riceCrop, maizeCrop, cottonCrop, mustardCrop, pulsesCrop]

/-- ECMAScript `Math.round`: round half toward positive infinity. -/
def jsRound (x : ℚ) : ℤ := ⌊x + 1 / 2⌋

/-- Rounding to one decimal place: `Math.round(x * 10) / 10`. -/
def round1 (x : ℚ) : ℚ := (jsRound (x * 10) : ℚ) / 10

/-- Case-sensitive containment of the character list `needle` as a prefix
of `hay`. -/
def charsLeadWith : List Char → List Char → Bool
  | [], _ => true
  | _ :: _, [] => false
  | a :: as, b :: bs => a == b && charsLeadWith as bs

/-- Containment of `needle` as a contiguous sublist of `hay`. -/
def charsContain (needle : List Char) : List Char → Bool
  | [] => charsLeadWith needle []
  | b :: bs => charsLeadWith needle (b :: bs) || charsContain needle bs

/-- ASCII lower-casing of one character, the effect of
`String.prototype.toLowerCase` on the ASCII strings this app uses. -/
def lowerChar (c : Char) : Char :=
  if 65 ≤ c.toNat ∧ c.toNat ≤ 90 then Char.ofNat (c.toNat + 32) else c

/-- Embedding of `soilType.toLowerCase().includes("loam")` (source line 158). -/
def hasLoam (soil : String) : Bool :=
  charsContain "loam".toList (soil.toList.map lowerChar)

/-- Embedding of `prefBonus` (source lines 138-144): first matching rule
wins, default 0. -/
def prefBonus (preference : String) (crop : Crop) : ℚ :=
  if preference = "Low water" ∧ crop.water = "Low" then 0.08
  else if preference = "High yield" ∧ 3.5 ≤ crop.baseYield then 0.06
  else if preference = "Short duration" ∧ (crop.name = "Pulses" ∨ crop.name = "Maize") then 0.06
  else if preference = "Market demand" ∧ (crop.name = "Rice" ∨ crop.name = "Wheat" ∨ crop.name = "Cotton") then 0.04
  else 0

/-- The pH contribution (source line 149). -/
def phTerm (s : ScenarioInput) (crop : Crop) : ℚ :=
  if crop.ideal.ph.1 ≤ s.ph ∧ s.ph ≤ crop.ideal.ph.2 then 0.28
  else max 0 (0.28 - |(crop.ideal.ph.1 + crop.ideal.ph.2) / 2 - s.ph| / 10)

/-- The temperature contribution (source line 152). -/
def tempTerm (s : ScenarioInput) (crop : Crop) : ℚ :=
  if crop.ideal.temp.1 ≤ s.temperature ∧ s.temperature ≤ crop.ideal.temp.2 then 0.24
  else max 0 (0.24 - |(crop.ideal.temp.1 + crop.ideal.temp.2) / 2 - s.temperature| / 50)

/-- The rainfall contribution (source line 155). -/
def rainTerm (s : ScenarioInput) (crop : Crop) : ℚ :=
  if crop.ideal.rainfall.1 ≤ s.rainfall ∧ s.rainfall ≤ crop.ideal.rainfall.2 then 0.24
  else max 0 (0.24 - |(crop.ideal.rainfall.1 + crop.ideal.rainfall.2) / 2 - s.rainfall| / 2000)

/-- The season contribution (source line 157). -/
def seasonTerm (s : ScenarioInput) (crop : Crop) : ℚ :=
  if crop.ideal.seasons.contains s.season then 0.16 else 0

/-- The soil-type bonus (source line 158). -/
def soilTerm (s : ScenarioInput) : ℚ :=
  if hasLoam s.soilType then 0.05 else 0

/-- The accumulated `score` local variable of `scoreCrop` just before the
yield derivation: the unclamped raw score. -/
def rawScore (s : ScenarioInput) (crop : Crop) : ℚ :=
  phTerm s crop + tempTerm s crop + rainTerm s crop + seasonTerm s crop
    + soilTerm s + prefBonus s.preference crop

/-- Embedding of `scoreCrop` (source lines 146-164). -/
def scoreCrop (s : ScenarioInput) (crop : Crop) : RankedCrop :=
  let score := rawScore s crop
  let expectedYieldPerHa := round1 (crop.baseYield * (1 + score * 0.4))
  let expectedYield := round1 (expectedYieldPerHa * s.area)
  { toCrop := crop
    score := min 1 score
    expectedYield := expectedYield
    expectedYieldValue := expectedYieldPerHa }

/-- The comparator `(a, b) => b.score - a.score` orders by descending
score; two elements compare equal exactly when their scores are equal. -/
def scoreDescRel (a b : RankedCrop) : Prop := b.score ≤ a.score

instance : DecidableRel scoreDescRel := fun a b =>
  inferInstanceAs (Decidable (b.score ≤ a.score))

instance : IsTotal RankedCrop scoreDescRel :=
  ⟨fun a b => le_total b.score a.score⟩

instance : IsTrans RankedCrop scoreDescRel :=
  ⟨fun _ _ _ hab hbc => le_trans hbc hab⟩

/-- Embedding of `computeRecommendations` (source line 166): score every
bank entry, stable-sort descending by clamped score, keep the first
three. -/
def computeRecommendations (s : ScenarioInput) : List RankedCrop :=
  (List.insertionSort scoreDescRel (cropBank.map (scoreCrop s))).take 3

/-- The worked scenario from the specification, also the form defaults. -/
def defaultScenario : ScenarioInput :=
  { ph := 6.5, temperature := 26, rainfall := 300, soilType := "Loam"
    area := 1.0, season := "Kharif", preference := "High yield" }

/-- The boolean test selecting the entries of one score class, used to
state stability of the ranking. -/
def scoreEq (q : ℚ) : RankedCrop → Bool := fun rc => decide (rc.score = q)

/-- A scenario placing Mustard inside all three ideal ranges with season,
loam and low-water bonuses: its raw score reaches 1.05. -/
def capScenario : ScenarioInput :=
  { ph := 6.75, temperature := 15, rainfall := 400, soilType := "Loam"
    area := 1, season := "Rabi", preference := "Low water" }

/-- The default scenario with the preference cleared. -/
def noPrefScenario : ScenarioInput :=
  { defaultScenario with preference := "" }

/-- The default scenario with zero area. -/
def zeroAreaScenario : ScenarioInput :=
  { defaultScenario with area := 0 }

/-- The default scenario with the pH moved to the lower end of the Wheat
ideal range. -/
def endpointScenario : ScenarioInput :=
  { defaultScenario with ph := 6.0 }

lemma phTerm_nonneg (s : ScenarioInput) (c : Crop) : 0 ≤ phTerm s c := by
  unfold phTerm; split
  · norm_num
  · exact le_max_left 0 _

lemma tempTerm_nonneg (s : ScenarioInput) (c : Crop) : 0 ≤ tempTerm s c := by
  unfold tempTerm; split
  · norm_num
  · exact le_max_left 0 _

lemma rainTerm_nonneg (s : ScenarioInput) (c : Crop) : 0 ≤ rainTerm s c := by
  unfold rainTerm; split
  · norm_num
  · exact le_max_left 0 _

lemma seasonTerm_nonneg (s : ScenarioInput) (c : Crop) : 0 ≤ seasonTerm s c := by
  unfold seasonTerm; split <;> norm_num

lemma soilTerm_nonneg (s : ScenarioInput) : 0 ≤ soilTerm s := by
  unfold soilTerm; split <;> norm_num

lemma prefBonus_nonneg (p : String) (c : Crop) : 0 ≤ prefBonus p c := by
  unfold prefBonus; split_ifs <;> norm_num

lemma rawScore_nonneg (s : ScenarioInput) (c : Crop) : 0 ≤ rawScore s c := by
  have h1 := phTerm_nonneg s c
  have h2 := tempTerm_nonneg s c
  have h3 := rainTerm_nonneg s c
  have h4 := seasonTerm_nonneg s c
  have h5 := soilTerm_nonneg s
  have h6 := prefBonus_nonneg s.preference c
  unfold rawScore; linarith

lemma phTerm_le (s : ScenarioInput) (c : Crop) : phTerm s c ≤ 0.28 := by
  unfold phTerm; split
  · norm_num
  · exact max_le (by norm_num)
      (sub_le_self _ (div_nonneg (abs_nonneg _) (by norm_num)))

lemma tempTerm_le (s : ScenarioInput) (c : Crop) : tempTerm s c ≤ 0.24 := by
  unfold tempTerm; split
  · norm_num
  · exact max_le (by norm_num)
      (sub_le_self _ (div_nonneg (abs_nonneg _) (by norm_num)))

lemma rainTerm_le (s : ScenarioInput) (c : Crop) : rainTerm s c ≤ 0.24 := by
  unfold rainTerm; split
  · norm_num
  · exact max_le (by norm_num)
      (sub_le_self _ (div_nonneg (abs_nonneg _) (by norm_num)))

lemma seasonTerm_le (s : ScenarioInput) (c : Crop) : seasonTerm s c ≤ 0.16 := by
  unfold seasonTerm; split <;> norm_num

lemma soilTerm_le (s : ScenarioInput) : soilTerm s ≤ 0.05 := by
  unfold soilTerm; split <;> norm_num

lemma prefBonus_le (p : String) (c : Crop) : prefBonus p c ≤ 0.08 := by
  unfold prefBonus; split_ifs <;> norm_num

/-- The raw score never exceeds 1.05, the sum of all maximal
contributions. -/
lemma rawScore_le (s : ScenarioInput) (c : Crop) : rawScore s c ≤ 1.05 := by
  have h1 := phTerm_le s c
  have h2 := tempTerm_le s c
  have h3 := rainTerm_le s c
  have h4 := seasonTerm_le s c
  have h5 := soilTerm_le s
  have h6 := prefBonus_le s.preference c
  unfold rawScore; linarith

/-- Rounding to one decimal place is monotone. -/
lemma round1_mono {x y : ℚ} (h : x ≤ y) : round1 x ≤ round1 y := by
  unfold round1 jsRound
  have hf : (⌊x * 10 + 1 / 2⌋ : ℤ) ≤ ⌊y * 10 + 1 / 2⌋ :=
    Int.floor_le_floor (by linarith)
  have hq : ((⌊x * 10 + 1 / 2⌋ : ℤ) : ℚ) ≤ ((⌊y * 10 + 1 / 2⌋ : ℤ) : ℚ) := by
    exact_mod_cast hf
  linarith

/-- Inserting an element does not disturb the entries of any single score
class: ordered insertion under `scoreDescRel` places the new element in
front of exactly the strictly smaller scores, so its score class sees it
arrive at the front, where `a` sits in `a :: l`. -/
lemma filter_scoreEq_orderedInsert (q : ℚ) (a : RankedCrop) (l : List RankedCrop) :
    (List.orderedInsert scoreDescRel a l).filter (scoreEq q)
      = (a :: l).filter (scoreEq q) := by
  induction l with
  | nil => rfl
  | cons b t ih =>
    by_cases hab : scoreDescRel a b
    · simp [List.orderedInsert, if_pos hab]
    · have hlt : a.score < b.score := lt_of_not_le hab
      rw [List.orderedInsert, if_neg hab]
      by_cases ha : a.score = q
      · have hb : ¬ b.score = q := fun h => absurd (ha.trans h.symm) (ne_of_lt hlt)
        simp [List.filter_cons, scoreEq, ha, hb, ih, List.filter]
      · simp [List.filter_cons, scoreEq, ha, ih, List.filter]

/-- The stable sort leaves every score class in its original order. -/
lemma filter_scoreEq_insertionSort (q : ℚ) (l : List RankedCrop) :
    (List.insertionSort scoreDescRel l).filter (scoreEq q) = l.filter (scoreEq q) := by
  induction l with
  | nil => rfl
  | cons x xs ih =>
    rw [List.insertionSort, filter_scoreEq_orderedInsert]
    simp [List.filter_cons, ih, List.filter]

/-- C1: for every scenario and every crop of the reference table, the
reported `score` of the crop's `RankedCrop` lies in the closed interval
[0, 1]: the clamp `min 1 _` gives the upper bound, and the lower bound
holds because every contribution summed into the raw score is
non-negative. -/
theorem score_mem_unit_interval (s : ScenarioInput) (c : Crop) (_hc : c ∈ cropBank) :
    0 ≤ (scoreCrop s c).score ∧ (scoreCrop s c).score ≤ 1 :=
  ⟨le_min (by norm_num) (rawScore_nonneg s c), min_le_left _ _⟩

/-- Witness for C1 at the specification's worked scenario and Wheat. -/
theorem score_mem_unit_interval_witness :
    0 ≤ (scoreCrop defaultScenario wheatCrop).score ∧
      (scoreCrop defaultScenario wheatCrop).score ≤ 1 :=
  score_mem_unit_interval defaultScenario wheatCrop (by simp [cropBank])

/-- C2: the returned sequence is sorted by descending clamped score, and
inside any class of equal scores the entries keep the relative order of
their crops in the reference table: the filtered output is a sublist of
the filtered scored table. -/
theorem recommendations_sorted_stable (s : ScenarioInput) :
    List.Pairwise scoreDescRel (computeRecommendations s) ∧
    ∀ q : ℚ, List.Sublist ((computeRecommendations s).filter (scoreEq q))
      ((cropBank.map (scoreCrop s)).filter (scoreEq q)) := by
  constructor
  · exact List.Pairwise.sublist (List.take_sublist 3 _)
      (List.sorted_insertionSort scoreDescRel (cropBank.map (scoreCrop s)))
  · intro q
    have h := (List.take_sublist 3
      (List.insertionSort scoreDescRel (cropBank.map (scoreCrop s)))).filter (scoreEq q)
    rwa [filter_scoreEq_insertionSort] at h

/-- C3: the returned sequence always has exactly min(3, tableSize) = 3
entries. -/
theorem recommendations_length (s : ScenarioInput) :
    (computeRecommendations s).length = min 3 cropBank.length ∧
      (computeRecommendations s).length = 3 := by
  have h : (computeRecommendations s).length = min 3 cropBank.length := by
    unfold computeRecommendations
    rw [List.length_take, List.length_insertionSort, List.length_map]
  exact ⟨h, by rw [h]; rfl⟩

/-- C9: the scorer is deterministic: identical inputs against the fixed
reference table produce identical output sequences. -/
theorem recommendations_deterministic (s t : ScenarioInput) (h : s = t) :
    computeRecommendations s = computeRecommendations t := by rw [h]

/-- Witness for C9 at the specification's worked scenario. -/
theorem recommendations_deterministic_witness :
    computeRecommendations defaultScenario = computeRecommendations defaultScenario :=
  recommendations_deterministic defaultScenario defaultScenario rfl

/-- C4: the pH term awards the full weight 0.28 exactly on the inclusive
ideal range — in particular at either endpoint — and otherwise decays
linearly from the range midpoint, floored at zero. -/
theorem phTerm_formula (c : Crop) (s : ScenarioInput) :
    (c.ideal.ph.1 ≤ s.ph ∧ s.ph ≤ c.ideal.ph.2 → phTerm s c = 0.28) ∧
    (s.ph = c.ideal.ph.1 → c.ideal.ph.1 ≤ c.ideal.ph.2 → phTerm s c = 0.28) ∧
    (s.ph = c.ideal.ph.2 → c.ideal.ph.1 ≤ c.ideal.ph.2 → phTerm s c = 0.28) ∧
    (¬(c.ideal.ph.1 ≤ s.ph ∧ s.ph ≤ c.ideal.ph.2) →
      phTerm s c = max 0 (0.28 - |(c.ideal.ph.1 + c.ideal.ph.2) / 2 - s.ph| / 10)) := by
  unfold phTerm
  refine ⟨fun h => if_pos h, fun h1 h2 => if_pos ⟨le_of_eq h1.symm, h1.le.trans h2⟩,
    fun h1 h2 => if_pos ⟨h2.trans h1.ge, h1.le⟩, fun h => if_neg h⟩

/-- Witness for C4: Wheat with the pH exactly at the lower endpoint 6.0 of
its ideal range still receives the full 0.28. -/
theorem phTerm_formula_witness : phTerm endpointScenario wheatCrop = 0.28 :=
  (phTerm_formula wheatCrop endpointScenario).2.1 rfl (by norm_num [wheatCrop])

/-- C5: the preference bonus follows the four rules in priority order with
first match winning and default 0; since the four preference labels are
pairwise distinct strings, each rule's firing condition is as stated. -/
theorem prefBonus_rules (p : String) (c : Crop) :
    (p = "Low water" ∧ c.water = "Low" → prefBonus p c = 0.08) ∧
    (p = "High yield" ∧ (3.5 : ℚ) ≤ c.baseYield → prefBonus p c = 0.06) ∧
    (p = "Short duration" ∧ (c.name = "Pulses" ∨ c.name = "Maize") → prefBonus p c = 0.06) ∧
    (p = "Market demand" ∧ (c.name = "Rice" ∨ c.name = "Wheat" ∨ c.name = "Cotton") →
      prefBonus p c = 0.04) ∧
    (¬(p = "Low water" ∧ c.water = "Low") ∧ ¬(p = "High yield" ∧ (3.5 : ℚ) ≤ c.baseYield) ∧
      ¬(p = "Short duration" ∧ (c.name = "Pulses" ∨ c.name = "Maize")) ∧
      ¬(p = "Market demand" ∧ (c.name = "Rice" ∨ c.name = "Wheat" ∨ c.name = "Cotton")) →
      prefBonus p c = 0) := by
  unfold prefBonus
  refine ⟨fun h => if_pos h, ?_, ?_, ?_, ?_⟩
  · rintro ⟨rfl, hb⟩
    rw [if_neg (fun h => absurd h.1 (by decide)), if_pos ⟨rfl, hb⟩]
  · rintro ⟨rfl, hn⟩
    rw [if_neg (fun h => absurd h.1 (by decide)),
      if_neg (fun h => absurd h.1 (by decide)), if_pos ⟨rfl, hn⟩]
  · rintro ⟨rfl, hn⟩
    rw [if_neg (fun h => absurd h.1 (by decide)),
      if_neg (fun h => absurd h.1 (by decide)),
      if_neg (fun h => absurd h.1 (by decide)), if_pos ⟨rfl, hn⟩]
  · rintro ⟨h1, h2, h3, h4⟩
    rw [if_neg h1, if_neg h2, if_neg h3, if_neg h4]

/-- Witness for C5: the low-water rule fires for Mustard. -/
theorem prefBonus_rules_witness : prefBonus "Low water" mustardCrop = 0.08 :=
  (prefBonus_rules "Low water" mustardCrop).1 ⟨rfl, rfl⟩

/-- C6: the per-hectare yield is the base yield scaled by the unclamped
raw score (not the clamped reported score) and rounded to one decimal,
and the total yield is the rounded product of the per-hectare yield with
the area; the reported score, by contrast, is the clamped raw score. -/
theorem yield_derivation (s : ScenarioInput) (c : Crop) :
    (scoreCrop s c).expectedYieldValue = round1 (c.baseYield * (1 + rawScore s c * 0.4)) ∧
    (scoreCrop s c).expectedYield = round1 ((scoreCrop s c).expectedYieldValue * s.area) ∧
    (scoreCrop s c).score = min 1 (rawScore s c) :=
  ⟨rfl, rfl, rfl⟩

/-- C8: switching the preference to "Low water" raises the raw score of a
low-water crop by exactly 0.08 over the otherwise-identical scenario
whose preference is unset (matches none of the four preference labels,
e.g. the empty string). -/
theorem lowWater_pref_delta (s : ScenarioInput) (c : Crop) (hw : c.water = "Low")
    (hp : s.preference ≠ "Low water" ∧ s.preference ≠ "High yield" ∧
      s.preference ≠ "Short duration" ∧ s.preference ≠ "Market demand") :
    rawScore { s with preference := "Low water" } c = rawScore s c + 0.08 := by
  have h1 : prefBonus "Low water" c = 0.08 := by
    unfold prefBonus; rw [if_pos ⟨rfl, hw⟩]
  have h2 : prefBonus s.preference c = 0 := by
    unfold prefBonus
    rw [if_neg (fun h => hp.1 h.1), if_neg (fun h => hp.2.1 h.1),
      if_neg (fun h => hp.2.2.1 h.1), if_neg (fun h => hp.2.2.2 h.1)]
  show phTerm s c + tempTerm s c + rainTerm s c + seasonTerm s c + soilTerm s
      + prefBonus "Low water" c
    = phTerm s c + tempTerm s c + rainTerm s c + seasonTerm s c + soilTerm s
      + prefBonus s.preference c + 0.08
  rw [h1, h2]; ring

/-- Witness for C8: Mustard under the default scenario with no preference
set. -/
theorem lowWater_pref_delta_witness :
    rawScore { noPrefScenario with preference := "Low water" } mustardCrop
      = rawScore noPrefScenario mustardCrop + 0.08 :=
  lowWater_pref_delta noPrefScenario mustardCrop rfl
    ⟨by decide, by decide, by decide, by decide⟩

/-- C10: with area 0 every returned entry has total yield 0, while the
per-hectare yield does not depend on the area at all. -/
theorem zero_area_yield (s : ScenarioInput) (h : s.area = 0) :
    (∀ rc ∈ computeRecommendations s, rc.expectedYield = 0) ∧
    (∀ (a : ℚ) (c : Crop),
      (scoreCrop { s with area := a } c).expectedYieldValue
        = (scoreCrop s c).expectedYieldValue) := by
  have key : ∀ c : Crop, (scoreCrop s c).expectedYield = 0 := by
    intro c
    show round1 (round1 (c.baseYield * (1 + rawScore s c * 0.4)) * s.area) = 0
    rw [h, mul_zero]
    norm_num [round1, jsRound]
  refine ⟨?_, fun a c => rfl⟩
  intro rc hrc
  have hmem : rc ∈ cropBank.map (scoreCrop s) :=
    (List.mem_insertionSort scoreDescRel).1 ((List.take_sublist 3 _).subset hrc)
  obtain ⟨c, -, rfl⟩ := List.mem_map.1 hmem
  exact key c

/-- Witness for C10: under the zero-area scenario the per-hectare yield of
Wheat is unchanged when the area is set to 7. -/
theorem zero_area_yield_witness :
    (scoreCrop { zeroAreaScenario with area := 7 } wheatCrop).expectedYieldValue
      = (scoreCrop zeroAreaScenario wheatCrop).expectedYieldValue :=
  (zero_area_yield zeroAreaScenario rfl).2 7 wheatCrop

/-- Refutation of C7 as stated: at `capScenario` Mustard collects every
contribution (raw score 1.05), its per-hectare yield rounds to 1.6, yet
the claimed cap round(1.1 × 1.4) rounds to 1.5. -/
theorem uplift_cap_counterexample :
    ¬ ((scoreCrop capScenario mustardCrop).expectedYieldValue
        ≤ round1 (mustardCrop.baseYield * 1.4)) := by
  have hl : hasLoam "Loam" = true := by decide
  have hsea : (["Rabi"].contains "Rabi") = true := by decide
  have hv : (scoreCrop capScenario mustardCrop).expectedYieldValue = 1.6 := by
    norm_num [scoreCrop, rawScore, phTerm, tempTerm, rainTerm, seasonTerm,
      soilTerm, prefBonus, round1, jsRound, mustardCrop, capScenario, hl, hsea]
  have hc : round1 (mustardCrop.baseYield * 1.4) = 1.5 := by
    norm_num [round1, jsRound, mustardCrop]
  rw [hv, hc]; norm_num

/-- C7 amended: the raw score saturates at 1.05, not 1, so the per-hectare
yield is capped by a 42% uplift: for every crop with non-negative base
yield, expectedYieldPerHectare ≤ round(baseYield × 1.42, 1 decimal). -/
theorem uplift_cap_amended (s : ScenarioInput) (c : Crop) (hb : 0 ≤ c.baseYield) :
    (scoreCrop s c).expectedYieldValue ≤ round1 (c.baseYield * 1.42) := by
  show round1 (c.baseYield * (1 + rawScore s c * 0.4)) ≤ round1 (c.baseYield * 1.42)
  exact round1_mono (mul_le_mul_of_nonneg_left (by linarith [rawScore_le s c]) hb)

/-- Witness for the amended C7 at the worked scenario and Wheat. -/
theorem uplift_cap_amended_witness :
    (scoreCrop defaultScenario wheatCrop).expectedYieldValue
      ≤ round1 (wheatCrop.baseYield * 1.42) :=
  uplift_cap_amended defaultScenario wheatCrop (by norm_num [wheatCrop])

end CropRec
